import Mathlib

/-!
Shallow embedding of the conditional-validation web server
(`validation_webserver.go`) and the parts of its test harness
(`validserver_test.go`) needed to settle the specification claims.

Conventions of the embedding:
* Go strings are Lean `String`s; byte lengths are UTF-8 byte lengths.
* `time.Time` values are embedded as a record of the calendar fields that
  the program reads (`Year/Month/Day/Hour/Minute/Second` plus the
  nanosecond argument of `time.Date`); all times in the program are UTC.
* Go's `http.Header` is a list of (name, value) pairs; `Get`/`Set`
  canonicalise the name exactly as `textproto.CanonicalMIMEHeaderKey`
  does for valid tokens.
* A Go runtime panic (the only reachable one is the slice-bounds panic in
  `ByteWriter.Write`) is embedded as `none` of an `Option`.
-/

/-- `const granularity_in_seconds = 15` (line 24 of validation_webserver.go). -/
def granularity_in_seconds : Nat := 15

/-- The `help_text` constant (lines 25-37), served on the path "/". -/
def help_text : String :=
  "\nUSAGE: You can go to any URL and get some basic content.\n\nIf the following components are present in the path URL, then you will\nget some additional behaviour:\n  /datemod/ -> Sets a Date-Modified header and performs date resource validation.\n  /etag/ -> Sets an E-Tag header and performs E-Tag resource validation.\n  /headers/ -> Includes the request headers in the content response.\n  /static/ -> Uses a fixed timestamp rather than an updating one.\n  \nYou can combine the path components too:\n  /resource/headers/static/blahblah/etag/anythingyoulike/\n"

/-- The calendar fields of a Go `time.Time` that the program uses.
All times handled by the server are in UTC, so no location field is kept. -/
structure GoTime where
  year : Nat
  month : Nat
  day : Nat
  hour : Nat
  minute : Nat
  second : Nat
  nsec : Nat
deriving DecidableEq, Repr

/-- `time.Date(2012, 12, 20, 20, 12, 12, 0, now.Location())` (line 90):
the fixed sentinel version used for `/static/` resources. -/
def staticDate : GoTime :=
  { year := 2012, month := 12, day := 20, hour := 20, minute := 12,
    second := 12, nsec := 0 }

/-- Lines 87-91: the version clock.  For a non-static resource the
seconds-of-minute are truncated down to a multiple of the granularity
(`seconds := (now.Second() / g) * g`) and the time is rebuilt with
`time.Date(year, month, day, hour, minute, seconds, 0, loc)`; for a static
resource the fixed `staticDate` is used instead.  `handle` instantiates
`g` with `granularity_in_seconds`. -/
def versionClock (g : Nat) (beStatic : Bool) (now : GoTime) : GoTime :=
  if beStatic then staticDate
  else { now with second := now.second / g * g, nsec := 0 }

/-- Zero-padded two-digit rendering, as Go's "01"/"02"/"15"/"04"/"05"
format verbs produce for in-range field values. -/
def pad2 (n : Nat) : String :=
  if n < 10 then "0" ++ toString n else toString n

/-- Go's `time.Month` three-letter names ("Jan" format verb). -/
def monthName : Nat → String
  | 1 => "Jan" | 2 => "Feb" | 3 => "Mar" | 4 => "Apr" | 5 => "May" | 6 => "Jun"
  | 7 => "Jul" | 8 => "Aug" | 9 => "Sep" | 10 => "Oct" | 11 => "Nov" | _ => "Dec"

/-- Day of week by Zeller's congruence (0 = Saturday), used to render the
"Mon" verb of `time.RFC1123Z`. -/
def weekdayIndex (t : GoTime) : Nat :=
  let m := if t.month < 3 then t.month + 12 else t.month
  let y := if t.month < 3 then t.year - 1 else t.year
  let k := y % 100
  let j := y / 100
  (t.day + 13 * (m + 1) / 5 + k + k / 4 + j / 4 + 5 * j) % 7

/-- Three-letter weekday name for the "Mon" format verb. -/
def weekdayName (t : GoTime) : String :=
  match weekdayIndex t with
  | 0 => "Sat" | 1 => "Sun" | 2 => "Mon" | 3 => "Tue" | 4 => "Wed"
  | 5 => "Thu" | _ => "Fri"

/-- `t.Format(time.RFC1123Z)` = "Mon, 02 Jan 2006 15:04:05 -0700" for a UTC
time (all times the server formats are UTC, so the zone renders "+0000"). -/
def rfc1123Z (t : GoTime) : String :=
  weekdayName t ++ ", " ++ pad2 t.day ++ " " ++ monthName t.month ++ " " ++
    toString t.year ++ " " ++ pad2 t.hour ++ ":" ++ pad2 t.minute ++ ":" ++
    pad2 t.second ++ " +0000"

/-- `then.Format("2006-01-02,15:04:05")` (line 102): the raw E-Tag text. -/
def etagFormat (t : GoTime) : String :=
  toString t.year ++ "-" ++ pad2 t.month ++ "-" ++ pad2 t.day ++ "," ++
    pad2 t.hour ++ ":" ++ pad2 t.minute ++ ":" ++ pad2 t.second

/-- `etag_enc := "\"" + etag + "\""` (line 103): the quoted E-Tag. -/
def etagEnc (t : GoTime) : String :=
  "\"" ++ etagFormat t ++ "\""

/-- Is `p` a prefix of `l`? (helper for the substring test). -/
def isPrefixL : List Char → List Char → Bool
  | [], _ => true
  | _ :: _, [] => false
  | a :: as, b :: bs => a == b && isPrefixL as bs

/-- Does `sub` occur contiguously inside `l`? (helper for `strContains`). -/
def isInfixL (sub : List Char) : List Char → Bool
  | [] => isPrefixL sub []
  | c :: rest => isPrefixL sub (c :: rest) || isInfixL sub rest

/-- `strings.Index(s, sub) != -1`: `sub` occurs as a substring of `s`. -/
def strContains (s sub : String) : Bool :=
  isInfixL sub.toList s.toList

/-- Byte-wise lexicographic `≤` on strings, as used by Go's
`sort.Strings` (UTF-8 byte order coincides with code-point order). -/
def charListLe : List Char → List Char → Bool
  | [], _ => true
  | _ :: _, [] => false
  | a :: as, b :: bs => a < b || (a == b && charListLe as bs)

/-- String `≤` for sorting header keys. -/
def strLeB (s t : String) : Bool :=
  charListLe s.toList t.toList

/-- Insertion step of the sort used to model `sort.Strings`. -/
def insertStr (x : String) : List String → List String
  | [] => [x]
  | y :: ys => if strLeB x y then x :: y :: ys else y :: insertStr x ys

/-- `sort.Strings(keys)` modelled as insertion sort (stable, and equal to
Go's sort result on lists of distinct keys). -/
def sortStrs : List String → List String
  | [] => []
  | x :: xs => insertStr x (sortStrs xs)

/-- One step of MIME header-key canonicalisation: upper-case the first
letter and every letter following a '-', lower-case the rest. -/
def canonicalKeyAux : Bool → List Char → List Char
  | _, [] => []
  | up, c :: cs =>
      if c = '-' then c :: canonicalKeyAux true cs
      else (if up then c.toUpper else c.toLower) :: canonicalKeyAux false cs

/-- `textproto.CanonicalMIMEHeaderKey` on a valid header token (every key
the program uses is a valid token, so the validity fallback never fires). -/
def canonicalKey (s : String) : String :=
  String.mk (canonicalKeyAux true s.toList)

/-- UTF-8 encoding of one character (byte values as `Nat`). -/
def utf8Bytes (c : Char) : List Nat :=
  let n := c.toNat
  if n < 128 then [n]
  else if n < 2048 then [192 + n / 64, 128 + n % 64]
  else if n < 65536 then [224 + n / 4096, 128 + n / 64 % 64, 128 + n % 64]
  else [240 + n / 262144, 128 + n / 4096 % 64, 128 + n / 64 % 64, 128 + n % 64]

/-- `[]byte(s)`: the UTF-8 bytes of a Go string. -/
def strBytes (s : String) : List Nat :=
  (s.toList.map utf8Bytes).flatten

/-- The parts of an `http.Request` the handler reads: method, URL path
and the header list (in insertion order, as `Header.Add` builds it). -/
structure Request where
  method : String
  path : String
  headers : List (String × String)
deriving DecidableEq, Repr

/-- A rendered HTTP response: status code, header list and body bytes. -/
structure Response where
  status : Nat
  headers : List (String × String)
  body : List Nat
deriving DecidableEq, Repr

/-- `Header.Get(k)`: first value whose canonical key matches canonical
`k`, or "" when absent. -/
def getHeader (hs : List (String × String)) (k : String) : String :=
  match hs.find? (fun p => canonicalKey p.1 == canonicalKey k) with
  | some p => p.2
  | none => ""

/-- `Header.Set(k, v)`: replace all values of canonical `k` with `v`. -/
def setHeader (hs : List (String × String)) (k v : String) :
    List (String × String) :=
  let ck := canonicalKey k
  hs.filter (fun p => p.1 != ck) ++ [(ck, v)]

/-- `http.Error(w, msg, code)` as issued through `respond` (lines 64-70):
plain-text error body `msg + "\n"` with the headers `http.Error` sets. -/
def errResponse (code : Nat) (msg : String) : Response :=
  { status := code,
    headers :=
      setHeader (setHeader [] "Content-Type" "text/plain; charset=utf-8")
        "X-Content-Type-Options" "nosniff",
    body := strBytes (msg ++ "\n") }

/-- The `ByteWriter` buffer (lines 39-42): a fixed byte slice plus a
write position. -/
structure ByteWriter where
  buf : List Nat
  pos : Nat
deriving DecidableEq, Repr

/-- `Buffy()` (lines 44-49): a fresh 4096-byte zeroed buffer. -/
def Buffy : ByteWriter :=
  { buf := List.replicate 4096 0, pos := 0 }

/-- `ByteWriter.Write` (lines 51-56): `copy(s.buf[s.pos:s.pos+n], bs)`
then `s.pos += n`.  When `s.pos+n` exceeds the buffer length the slice
expression panics with a slice-bounds error, embedded here as `none`;
the Go method never grows the buffer and never returns a non-nil error. -/
def ByteWriter.write (s : ByteWriter) (bs : List Nat) : Option ByteWriter :=
  let n := bs.length
  if s.pos + n ≤ s.buf.length then
    some { buf := s.buf.take s.pos ++ bs ++ s.buf.drop (s.pos + n),
           pos := s.pos + n }
  else none

/-- `ByteWriter.AsString` (lines 58-60): `string(b.buf[0:b.pos])`. -/
def ByteWriter.asString (b : ByteWriter) : List Nat :=
  b.buf.take b.pos

/-- Sequence of `Write` calls against one buffer, propagating the panic. -/
def writeAll (w : ByteWriter) : List (List Nat) → Option ByteWriter
  | [] => some w
  | c :: cs =>
    match w.write c with
    | none => none
    | some w2 => writeAll w2 cs

/-- The byte chunks written into the `Buffy` buffer at lines 162-175:
`Fprintln` joins its operands with single spaces and appends a newline;
the optional header echo renders "  %v: %v\n" for each sorted key of the
request's (canonically keyed) header map. -/
def bodyChunks (r : Request) (nowHeader thenHeader : String)
    (printHeaders : Bool) : List (List Nat) :=
  ([ "Content date: " ++ thenHeader ++ "\n",
     "Generated:    " ++ nowHeader ++ "\n" ] ++
    (if printHeaders then
      "\nREQUEST HEADERS:\n" ::
        (sortStrs ((r.headers.map (fun p => canonicalKey p.1)).dedup)).map
          (fun k => "  " ++ k ++ ": " ++ getHeader r.headers k ++ "\n")
     else [])).map strBytes

/-- Lines 148-187 of `handle`: set Content-Type, serve `help_text` on
"/", otherwise build the body through a `Buffy` buffer, copy the
accumulated custom headers in, set Content-Length and answer 200. -/
def contentResponse (r : Request) (nowHeader thenHeader : String)
    (printHeaders : Bool) (custom : List (String × String)) :
    Option Response :=
  let ct := setHeader [] "Content-Type" "text/plain; charset=utf-8"
  if r.path = "/" then
    some { status := 200,
           headers := setHeader ct "Content-Length"
             (toString (strBytes help_text).length),
           body := strBytes help_text }
  else
    match writeAll Buffy (bodyChunks r nowHeader thenHeader printHeaders) with
    | none => none
    | some b =>
      let content := b.asString
      some { status := 200,
             headers :=
               setHeader
                 (custom.foldl (fun acc p => setHeader acc p.1 p.2) ct)
                 "Content-Length" (toString content.length),
             body := content }

/-- Lines 128-146 of `handle`: the Last-Modified channel.  A present
If-Unmodified-Since value differing from the formatted current version
gives 412; else a present If-Modified-Since value differing from it gives
304; else the `Last-Modified` header is recorded and content is served. -/
def lastmodCheck (r : Request) (nowHeader thenHeader : String)
    (printHeaders useLastmod : Bool) (custom : List (String × String)) :
    Option Response :=
  if useLastmod then
    let unmod_since := getHeader r.headers "If-Unmodified-Since"
    if 0 < unmod_since.length ∧ unmod_since ≠ thenHeader then
      some (errResponse 412 "Document has been modified")
    else
      let mod_since := getHeader r.headers "If-Modified-Since"
      if 0 < mod_since.length ∧ mod_since ≠ thenHeader then
        some (errResponse 304 "Document has not been modified")
      else
        contentResponse r nowHeader thenHeader printHeaders
          (custom ++ [("Last-Modified", thenHeader)])
  else contentResponse r nowHeader thenHeader printHeaders custom

/-- The request handler `handle` (lines 62-188), as a function of the
wall-clock time `now` and the request.  Non-GET methods answer 405; the
E-Tag channel (lines 99-124) runs before the Last-Modified channel,
checking If-Match (412 unless the encoded tag is the literal quoted
wildcard or equals the header value) then If-None-Match (304 when the
encoded tag is the quoted wildcard or equals the header value). -/
def handle (now : GoTime) (r : Request) : Option Response :=
  if r.method ≠ "GET" then
    some (errResponse 405 "Only GET requests supported")
  else
    let printHeaders := strContains r.path "/headers/"
    let useEtags := strContains r.path "/etag/"
    let useLastmod := strContains r.path "/lastmod/"
    let beStatic := strContains r.path "/static/"
    let nowHeader := rfc1123Z now
    let thenT := versionClock granularity_in_seconds beStatic now
    let thenHeader := rfc1123Z thenT
    if useEtags then
      let etag_enc := etagEnc thenT
      let etag_if_match := getHeader r.headers "If-Match"
      if 0 < etag_if_match.length ∧
          ¬ (etag_enc = "\"*\"" ∨ etag_enc = etag_if_match) then
        some (errResponse 412 "If-Match failed: ETag did not match")
      else
        let etag_if_none_match := getHeader r.headers "If-None-Match"
        if 0 < etag_if_none_match.length ∧
            (etag_enc = "\"*\"" ∨ etag_enc = etag_if_none_match) then
          some (errResponse 304 "Content matches on If-None-Match")
        else
          lastmodCheck r nowHeader thenHeader printHeaders useLastmod
            [("E-Tag", etag_enc)]
    else
      lastmodCheck r nowHeader thenHeader printHeaders useLastmod []

/-- Modelled from the spec: the response of the scenario harness's target
server (the `target_server` of validserver_test.go, not among the source
files; only its caller `ClockU.Update` is) to the ExplicitMutator's
state-changing request.  Spec: "`PUT` (explicit mutation trigger for
ExplicitMutator), returning 204 with no body on success" and
"ExplicitMutator: ... asserts its own success (204)". -/
def targetMutate (path : String) : Response :=
  { status := 204, headers := [], body := [] }

/-- Modelled from the spec: whether a resource path carries one of the
recognised path-flag segments of the spec's path-flag convention
(`static`, `etag`, `lastmod`, `headers`). -/
def recognizedPathFlag (path : String) : Bool :=
  strContains path "/static/" || strContains path "/etag/" ||
    strContains path "/lastmod/" || strContains path "/headers/"

/-- Modelled from the spec: the target server's routing of a GET by
resource path.  The server answering the harness is not among the source
files (only the test `TestBasicMissingDoc` asserting on it is); the spec
directs: "do not assume a specific routing rule beyond: unrecognized
resource path yields 410". -/
def targetRouteStatus (path : String) : Nat :=
  if recognizedPathFlag path then 200 else 410

/-- A sample wall-clock instant used for concrete evaluations: one second
after the static sentinel date. -/
def sampleNow : GoTime :=
  { year := 2012, month := 12, day := 20, hour := 20, minute := 12,
    second := 13, nsec := 0 }

/-! ## Lemmas about the `ByteWriter` buffer -/

/-- A successful `Write`: when the data fits, the buffer segment
`[pos, pos+n)` is overwritten and the position advances. -/
theorem ByteWriter.write_of_le (s : ByteWriter) (bs : List Nat)
    (h : s.pos + bs.length ≤ s.buf.length) :
    s.write bs =
      some { buf := s.buf.take s.pos ++ bs ++ s.buf.drop (s.pos + bs.length),
             pos := s.pos + bs.length } := by
  simp [ByteWriter.write, h]

/-- A failing `Write`: data past the end of the buffer panics (`none`). -/
theorem ByteWriter.write_of_gt (s : ByteWriter) (bs : List Nat)
    (h : s.buf.length < s.pos + bs.length) :
    s.write bs = none := by
  simp [ByteWriter.write]
  omega

/-- Taking exactly through the copied segment recovers prefix plus data. -/
theorem take_append_exact (A bs C : List Nat) :
    (A ++ bs ++ C).take (A.length + bs.length) = A ++ bs := by
  rw [List.take_append_eq_append_take]
  rw [List.take_of_length_le (by simp)]
  simp

/-- Soundness of a sequence of writes against a 4096-byte buffer: if the
cumulative length fits, all writes succeed and the readable prefix is the
previous prefix followed by the concatenation of the data; if the
cumulative length overflows, the sequence panics (`none`). -/
theorem writeAll_sound (chunks : List (List Nat)) (w : ByteWriter)
    (hbuf : w.buf.length = 4096) (hpos : w.pos ≤ 4096) :
    (w.pos + (chunks.map List.length).sum ≤ 4096 →
      ∃ w2 : ByteWriter, writeAll w chunks = some w2 ∧
        w2.buf.length = 4096 ∧
        w2.pos = w.pos + (chunks.map List.length).sum ∧
        w2.asString = w.asString ++ chunks.flatten) ∧
    (4096 < w.pos + (chunks.map List.length).sum →
      writeAll w chunks = none) := by
  induction chunks generalizing w with
  | nil =>
    refine ⟨fun h => ⟨w, rfl, hbuf, by simp, by simp⟩, fun h => ?_⟩
    simp at h
    omega
  | cons c cs ih =>
    constructor
    · intro h
      simp only [List.map_cons, List.sum_cons] at h
      have hfit : w.pos + c.length ≤ w.buf.length := by omega
      have hw := ByteWriter.write_of_le w c hfit
      set w1 : ByteWriter :=
        { buf := w.buf.take w.pos ++ c ++ w.buf.drop (w.pos + c.length),
          pos := w.pos + c.length } with hw1
      have hlen1 : w1.buf.length = 4096 := by
        simp [hw1, List.length_take, List.length_drop]
        omega
      have hpos1 : w1.pos ≤ 4096 := by
        simp [hw1]; omega
      have hstr1 : w1.asString = w.asString ++ c := by
        have htk : (w.buf.take w.pos).length = w.pos := by
          simp [List.length_take]; omega
        simpa [ByteWriter.asString, hw1, htk]
          using take_append_exact (w.buf.take w.pos) c
            (w.buf.drop (w.pos + c.length))
      obtain ⟨w2, hrun, hl2, hp2, hs2⟩ :=
        (ih w1 hlen1 hpos1).1 (by simp [hw1]; omega)
      refine ⟨w2, ?_, hl2, ?_, ?_⟩
      · simp [writeAll, hw, hrun]
      · simp [hp2, hw1]; omega
      · simp [hs2, hstr1]
    · intro h
      simp only [List.map_cons, List.sum_cons] at h
      by_cases hc : w.pos + c.length ≤ w.buf.length
      · have hw := ByteWriter.write_of_le w c hc
        set w1 : ByteWriter :=
          { buf := w.buf.take w.pos ++ c ++ w.buf.drop (w.pos + c.length),
            pos := w.pos + c.length } with hw1
        have hlen1 : w1.buf.length = 4096 := by
          simp [hw1, List.length_take, List.length_drop]
          omega
        have hpos1 : w1.pos ≤ 4096 := by
          simp [hw1]
          omega
        have hrun := (ih w1 hlen1 hpos1).2 (by simp [hw1]; omega)
        simp [writeAll, hw, hrun]
      · have hw := ByteWriter.write_of_gt w c (by omega)
        simp [writeAll, hw]

/-- The fresh buffer has 4096 bytes of room. -/
theorem Buffy_buf_length : Buffy.buf.length = 4096 :=
  List.length_replicate 4096 0

/-- The fresh buffer starts at position 0. -/
theorem Buffy_pos : Buffy.pos = 0 := rfl

/-- The fresh buffer reads back as the empty byte string. -/
theorem Buffy_asString : Buffy.asString = [] := rfl

/-- When the generated body fits in the 4096-byte buffer, the content
path of the handler produces a 200 response whose body is the
concatenation of the written chunks. -/
theorem contentResponse_200 (r : Request) (nh th : String) (ph : Bool)
    (custom : List (String × String)) (hp : ¬ r.path = "/")
    (hfit : ((bodyChunks r nh th ph).map List.length).sum ≤ 4096) :
    contentResponse r nh th ph custom =
      some { status := 200,
             headers :=
               setHeader
                 (custom.foldl (fun acc p => setHeader acc p.1 p.2)
                   (setHeader [] "Content-Type" "text/plain; charset=utf-8"))
                 "Content-Length"
                 (toString (bodyChunks r nh th ph).flatten.length),
             body := (bodyChunks r nh th ph).flatten } := by
  obtain ⟨w2, hw, hlen, hpos, hstr⟩ :=
    (writeAll_sound (bodyChunks r nh th ph) Buffy
      Buffy_buf_length (by rw [Buffy_pos]; omega)).1
      (by rw [Buffy_pos]; simpa using hfit)
  have hstr2 : w2.asString = (bodyChunks r nh th ph).flatten := by
    rw [hstr, Buffy_asString, List.nil_append]
  simp [contentResponse, hp, hw, hstr2]

/-- The quoted E-Tag is never the quoted wildcard: its length is at least
18 while `"\"*\""` has length 3, so the wildcard disjunct of the If-Match
and If-None-Match comparisons (lines 110 and 118) can never hold. -/
theorem etagEnc_ne_wildcard (t : GoTime) : etagEnc t ≠ "\"*\"" := by
  intro heq
  have hlen := congrArg String.length heq
  have h1 : ("\"" : String).length = 1 := rfl
  have h2 : ("-" : String).length = 1 := rfl
  have h3 : ("," : String).length = 1 := rfl
  have h4 : (":" : String).length = 1 := rfl
  have h5 : ("\"*\"" : String).length = 3 := rfl
  simp [etagEnc, etagFormat, String.length_append, h1, h2, h3, h4, h5] at hlen
  omega

/-- The quoted E-Tag is a non-empty string. -/
theorem etagEnc_length_pos (t : GoTime) : 0 < (etagEnc t).length := by
  have h1 : ("\"" : String).length = 1 := rfl
  simp [etagEnc, String.length_append, h1]

/-! ## Claim theorems -/

/-- Claim C6: every request whose method is not GET receives status 405,
regardless of path or precondition headers; the response is the constant
405 error, so no validation and no content generation take place. -/
theorem claim_C6_non_get_is_405 (now : GoTime) (r : Request)
    (h : r.method ≠ "GET") :
    handle now r = some (errResponse 405 "Only GET requests supported") := by
  simp [handle, h]

/-- Witness for C6: a PUT to an etag path gets the constant 405 error. -/
theorem claim_C6_witness :
    handle sampleNow
        { method := "PUT", path := "/etag/x/",
          headers := [("If-Match", "\"*\"")] }
      = some (errResponse 405 "Only GET requests supported") :=
  claim_C6_non_get_is_405 sampleNow
    { method := "PUT", path := "/etag/x/", headers := [("If-Match", "\"*\"")] }
    (by decide)

/-- Claim C7: on a lastmod-enabled resource, when the earlier checks of
the chain do not fire (no ETag-channel header is present and any
If-Unmodified-Since value is absent or equal), a present If-Modified-Since
value that is not an exact string match of the current version's formatted
timestamp yields 304 NotModified; the comparison is plain string
inequality against the one canonical rendering, so a malformed value
behaves as non-matching (304), never as an error. -/
theorem claim_C7_ifModifiedSince_mismatch_304 (now : GoTime) (r : Request)
    (hm : r.method = "GET")
    (hlm : strContains r.path "/lastmod/" = true)
    (him : getHeader r.headers "If-Match" = "")
    (hinm : getHeader r.headers "If-None-Match" = "")
    (hums : getHeader r.headers "If-Unmodified-Since" = "" ∨
      getHeader r.headers "If-Unmodified-Since" =
        rfc1123Z (versionClock granularity_in_seconds
          (strContains r.path "/static/") now))
    (hms : 0 < (getHeader r.headers "If-Modified-Since").length)
    (hne : getHeader r.headers "If-Modified-Since" ≠
      rfc1123Z (versionClock granularity_in_seconds
        (strContains r.path "/static/") now)) :
    handle now r = some (errResponse 304 "Document has not been modified") := by
  cases he : strContains r.path "/etag/" <;>
    rcases hums with hu | hu <;>
      simp [handle, lastmodCheck, hm, hlm, him, hinm, he, hu, hms, hne]

/-- Witness for C7: a malformed If-Modified-Since value on a lastmod
resource draws the 304 response. -/
theorem claim_C7_witness :
    handle sampleNow
        { method := "GET", path := "/lastmod/x/",
          headers := [("If-Modified-Since", "certainly not a date")] }
      = some (errResponse 304 "Document has not been modified") :=
  claim_C7_ifModifiedSince_mismatch_304 sampleNow
    { method := "GET", path := "/lastmod/x/",
      headers := [("If-Modified-Since", "certainly not a date")] }
    (by decide) (by decide) (by decide) (by decide) (Or.inl (by decide))
    (by decide) (by decide)

/-- Claim C8: the evaluation order fixes precedence.  On an etag-enabled
resource: (a) a present If-Match value that is neither the wildcard (in
either rendering) nor an exact match of the current quoted tag draws 412
whatever If-None-Match, If-Modified-Since or If-Unmodified-Since values
the same request carries; (b) with If-Match absent, a present
If-None-Match value exactly matching the current quoted tag draws the
ETag-channel 304 before any date-channel check is consulted, again
whatever date headers are present. -/
theorem claim_C8_precedence (now : GoTime) (r : Request)
    (hm : r.method = "GET")
    (he : strContains r.path "/etag/" = true) :
    (0 < (getHeader r.headers "If-Match").length →
      getHeader r.headers "If-Match" ≠ "*" →
      getHeader r.headers "If-Match" ≠ "\"*\"" →
      getHeader r.headers "If-Match" ≠
        etagEnc (versionClock granularity_in_seconds
          (strContains r.path "/static/") now) →
      handle now r =
        some (errResponse 412 "If-Match failed: ETag did not match")) ∧
    (getHeader r.headers "If-Match" = "" →
      getHeader r.headers "If-None-Match" =
        etagEnc (versionClock granularity_in_seconds
          (strContains r.path "/static/") now) →
      handle now r =
        some (errResponse 304 "Content matches on If-None-Match")) := by
  constructor
  · intro hlen hw1 hw2 hne
    have hwild := etagEnc_ne_wildcard
      (versionClock granularity_in_seconds (strContains r.path "/static/") now)
    have hne2 : ¬ (etagEnc (versionClock granularity_in_seconds
        (strContains r.path "/static/") now)
          = getHeader r.headers "If-Match") :=
      fun hx => hne hx.symm
    simp [handle, hm, he, hlen, hwild, hne2]
  · intro him hinm
    have hpos := etagEnc_length_pos
      (versionClock granularity_in_seconds (strContains r.path "/static/") now)
    simp [handle, hm, he, him, hinm, hpos]

/-- Witness for C8: on a static etag resource, a non-wildcard non-match
If-Match yields 412 even alongside contradicting date headers, and an
exactly matching If-None-Match yields the ETag-channel 304 even with an
If-Modified-Since present. -/
theorem claim_C8_witness :
    handle sampleNow
        { method := "GET", path := "/static/etag/x/",
          headers := [("If-Match", "\"other\""),
            ("If-None-Match", "\"2012-12-20,20:12:12\""),
            ("If-Modified-Since", "whatever")] }
      = some (errResponse 412 "If-Match failed: ETag did not match") ∧
    handle sampleNow
        { method := "GET", path := "/static/etag/x/",
          headers := [("If-None-Match", "\"2012-12-20,20:12:12\""),
            ("If-Modified-Since", "whatever")] }
      = some (errResponse 304 "Content matches on If-None-Match") :=
  ⟨(claim_C8_precedence sampleNow
      { method := "GET", path := "/static/etag/x/",
        headers := [("If-Match", "\"other\""),
          ("If-None-Match", "\"2012-12-20,20:12:12\""),
          ("If-Modified-Since", "whatever")] }
      (by decide) (by decide)).1
      (by decide) (by decide) (by decide) (by decide),
   (claim_C8_precedence sampleNow
      { method := "GET", path := "/static/etag/x/",
        headers := [("If-None-Match", "\"2012-12-20,20:12:12\""),
          ("If-Modified-Since", "whatever")] }
      (by decide) (by decide)).2
      (by decide) (by decide)⟩

/-- Claim C9: for any positive granularity, two times equal up to the
minute with equal integer quotients of seconds-of-minute fall in the same
truncation bucket and get equal versions; truncation lowers only the
seconds-of-minute to the nearest (largest not-exceeding) multiple of the
granularity, leaving the year, month, day, hour and minute unchanged;
and in static mode the version is the fixed sentinel, independent of the
current time. -/
theorem claim_C9_versionClock (g : Nat) (hg : 0 < g) (t t1 t2 : GoTime)
    (hy : t1.year = t2.year) (hmo : t1.month = t2.month)
    (hd : t1.day = t2.day) (hh : t1.hour = t2.hour)
    (hmi : t1.minute = t2.minute)
    (hq : t1.second / g = t2.second / g) :
    versionClock g false t1 = versionClock g false t2 ∧
    (versionClock g false t).year = t.year ∧
    (versionClock g false t).month = t.month ∧
    (versionClock g false t).day = t.day ∧
    (versionClock g false t).hour = t.hour ∧
    (versionClock g false t).minute = t.minute ∧
    (versionClock g false t).second = t.second / g * g ∧
    (versionClock g false t).second % g = 0 ∧
    (versionClock g false t).second ≤ t.second ∧
    t.second < (versionClock g false t).second + g ∧
    versionClock g true t = staticDate := by
  have h1 : t.second / g * g ≤ t.second := Nat.div_mul_le_self _ _
  have h2 : t.second / g * g % g = 0 := Nat.mul_mod_left _ _
  have h3 : t.second < t.second / g * g + g := Nat.lt_div_mul_add hg
  cases t1; cases t2
  refine ⟨?_, ?_, ?_, ?_, ?_, ?_, ?_, ?_, ?_, ?_, ?_⟩ <;>
    simp_all [versionClock]

/-- Witness for C9: granularity 15, two times in the same quarter-minute
bucket (seconds 17 and 29) and a probe time with seconds 44. -/
theorem claim_C9_witness :
    versionClock 15 false
        { year := 2020, month := 1, day := 2, hour := 3, minute := 4,
          second := 17, nsec := 0 } =
      versionClock 15 false
        { year := 2020, month := 1, day := 2, hour := 3, minute := 4,
          second := 29, nsec := 999 } ∧
    (versionClock 15 false
        { year := 2020, month := 1, day := 2, hour := 3, minute := 4,
          second := 44, nsec := 0 }).second = 30 ∧
    versionClock 15 true
        { year := 2020, month := 1, day := 2, hour := 3, minute := 4,
          second := 44, nsec := 0 } = staticDate := by
  have h := claim_C9_versionClock 15 (by decide)
    { year := 2020, month := 1, day := 2, hour := 3, minute := 4,
      second := 44, nsec := 0 }
    { year := 2020, month := 1, day := 2, hour := 3, minute := 4,
      second := 17, nsec := 0 }
    { year := 2020, month := 1, day := 2, hour := 3, minute := 4,
      second := 29, nsec := 999 }
    (by decide) (by decide) (by decide) (by decide) (by decide) (by decide)
  exact ⟨h.1, by decide, h.2.2.2.2.2.2.2.2.2.2⟩

/-- Claim C10: the response-body writer uses a fixed 4096-byte buffer.
Whenever the cumulative bytes written stay within 4096, every write
succeeds and `AsString` reads back exactly the concatenation of all
writes; as soon as the cumulative bytes exceed 4096, the write slices the
buffer out of range (a runtime panic, embedded as `none`) instead of
growing the buffer or reporting an error value. -/
theorem claim_C10_bytewriter :
    (∀ chunks : List (List Nat), (chunks.map List.length).sum ≤ 4096 →
      ∃ w : ByteWriter, writeAll Buffy chunks = some w ∧
        w.asString = chunks.flatten) ∧
    (∀ chunks : List (List Nat), 4096 < (chunks.map List.length).sum →
      writeAll Buffy chunks = none) := by
  constructor
  · intro chunks h
    obtain ⟨w2, hw, hl2, hp2, hstr⟩ :=
      (writeAll_sound chunks Buffy Buffy_buf_length
        (by rw [Buffy_pos]; omega)).1 (by rw [Buffy_pos]; simpa using h)
    exact ⟨w2, hw, by rw [hstr, Buffy_asString, List.nil_append]⟩
  · intro chunks h
    exact (writeAll_sound chunks Buffy Buffy_buf_length
      (by rw [Buffy_pos]; omega)).2 (by rw [Buffy_pos]; simpa using h)

/-- Witness for C10: two small writes concatenate; one 4097-byte write
panics. -/
theorem claim_C10_witness :
    (∃ w : ByteWriter, writeAll Buffy [[1, 2], [3]] = some w ∧
      w.asString = [[1, 2], [3]].flatten) ∧
    writeAll Buffy [List.replicate 4097 7] = none :=
  ⟨claim_C10_bytewriter.1 [[1, 2], [3]] (by decide),
   claim_C10_bytewriter.2 [List.replicate 4097 7]
     (by rw [List.map_cons, List.map_nil, List.length_replicate,
           List.sum_cons, List.sum_nil]; omega)⟩

/-- The baseline GET of the harness's lastmod scenario (phase 1). -/
def c1BaseReq : Request :=
  { method := "GET", path := "/static/lastmod/functest/", headers := [] }

/-- The harness's "modified" request of phase 2: If-Modified-Since set to
the Last-Modified value captured from the baseline 200 response. -/
def c1ModReq : Request :=
  { method := "GET", path := "/static/lastmod/functest/",
    headers := [("If-Modified-Since", "Thu, 20 Dec 2012 20:12:12 +0000")] }

/-- Claim C1 (evaluation at the failing input): the baseline 200 response
carries Last-Modified "Thu, 20 Dec 2012 20:12:12 +0000", yet replaying
exactly that value as If-Modified-Since against the unmutated version
yields a 200 Full response — not the 304 the claim (and the test
`DoValidationTest`, which requires 304 for this request) demands, because
line 139 sends 304 only when the values differ. -/
theorem claim_C1_code_returns_200_not_304 :
    (handle sampleNow c1BaseReq).map
        (fun resp => (resp.status, getHeader resp.headers "Last-Modified"))
      = some (200, "Thu, 20 Dec 2012 20:12:12 +0000") ∧
    (handle sampleNow c1ModReq).map Response.status = some 200 := by
  have hc1 : strContains "/static/lastmod/functest/" "/etag/" = false := rfl
  have hc2 : strContains "/static/lastmod/functest/" "/headers/" = false := rfl
  have hc3 : strContains "/static/lastmod/functest/" "/lastmod/" = true := rfl
  have hc4 : strContains "/static/lastmod/functest/" "/static/" = true := rfl
  have hv : versionClock granularity_in_seconds true sampleNow = staticDate := rfl
  have hr : rfc1123Z staticDate = "Thu, 20 Dec 2012 20:12:12 +0000" := rfl
  constructor
  · have hb : handle sampleNow c1BaseReq =
        contentResponse c1BaseReq (rfc1123Z sampleNow)
          "Thu, 20 Dec 2012 20:12:12 +0000" false
          [("Last-Modified", "Thu, 20 Dec 2012 20:12:12 +0000")] := by
      simp [handle, lastmodCheck, c1BaseReq, hc1, hc2, hc3, hc4, hv, hr,
        getHeader]
    rw [hb, contentResponse_200 _ _ _ _ _ (by decide) (by decide)]
    decide
  · have hm : handle sampleNow c1ModReq =
        contentResponse c1ModReq (rfc1123Z sampleNow)
          "Thu, 20 Dec 2012 20:12:12 +0000" false
          [("Last-Modified", "Thu, 20 Dec 2012 20:12:12 +0000")] := by
      simp [handle, lastmodCheck, c1ModReq, hc1, hc2, hc3, hc4, hv, hr]
      rw [if_neg (by decide), if_neg (by decide)]
    rw [hm, contentResponse_200 _ _ _ _ _ (by decide) (by decide)]
    decide

/-- The baseline GET of the harness's etag scenario. -/
def c2Req : Request :=
  { method := "GET", path := "/static/etag/functest/", headers := [] }

/-- Claim C2 (evaluation at the failing input): the 200 response of an
etag-enabled resource stores the quoted tag under the header name
"E-Tag" (line 123); a reader of the header "ETag" — as the test's
`ETagV.Build` and the spec's response-header list use — obtains the empty
string, because "ETag" canonicalises to "Etag", a different name. -/
theorem claim_C2_etag_header_name_mismatch :
    (handle sampleNow c2Req).map
        (fun resp => (resp.status, getHeader resp.headers "E-Tag",
          getHeader resp.headers "ETag"))
      = some (200, "\"2012-12-20,20:12:12\"", "") := by
  have hc1 : strContains "/static/etag/functest/" "/etag/" = true := rfl
  have hc2 : strContains "/static/etag/functest/" "/headers/" = false := rfl
  have hc3 : strContains "/static/etag/functest/" "/lastmod/" = false := rfl
  have hc4 : strContains "/static/etag/functest/" "/static/" = true := rfl
  have hv : versionClock granularity_in_seconds true sampleNow = staticDate := rfl
  have hr : rfc1123Z staticDate = "Thu, 20 Dec 2012 20:12:12 +0000" := rfl
  have he : etagEnc staticDate = "\"2012-12-20,20:12:12\"" := rfl
  have hb : handle sampleNow c2Req =
      contentResponse c2Req (rfc1123Z sampleNow)
        "Thu, 20 Dec 2012 20:12:12 +0000" false
        [("E-Tag", "\"2012-12-20,20:12:12\"")] := by
    simp [handle, lastmodCheck, c2Req, hc1, hc2, hc3, hc4, hv, hr, he,
      getHeader]
  rw [hb, contentResponse_200 _ _ _ _ _ (by decide) (by decide)]
  decide

/-- Claim C3 (evaluation at the failing input): a GET on an etag-enabled
resource whose If-Match is the wildcard — quoted or bare — draws 412,
because line 110 compares the server's own encoded tag (never the
wildcard) against `"\"*\""` and against the header value, instead of
testing whether the client sent the wildcard. -/
theorem claim_C3_wildcard_ifmatch_412 :
    (handle sampleNow
        { method := "GET", path := "/static/etag/functest/",
          headers := [("If-Match", "\"*\"")] }).map Response.status
      = some 412 ∧
    (handle sampleNow
        { method := "GET", path := "/static/etag/functest/",
          headers := [("If-Match", "*")] }).map Response.status
      = some 412 := by decide

/-- Claim C4: the target server's handling of the ExplicitMutator's PUT
(modelled from the spec) answers 204 with no body, for every path. -/
theorem claim_C4_put_204_no_body (p : String) :
    (targetMutate p).status = 204 ∧ (targetMutate p).body = [] :=
  ⟨rfl, rfl⟩

/-- Claim C5: a GET for a path with no recognised path-flag segment is
routed (per the spec's modelled target server) to status 410. -/
theorem claim_C5_unknown_path_410 (p : String)
    (h : recognizedPathFlag p = false) :
    targetRouteStatus p = 410 := by
  simp [targetRouteStatus, h]

/-- Witness for C5: the two unknown paths exercised by the spec and the
test `TestBasicMissingDoc` both route to 410. -/
theorem claim_C5_witness :
    targetRouteStatus "/nope/" = 410 ∧
    targetRouteStatus "/gosomewhere/notexpected/" = 410 :=
  ⟨claim_C5_unknown_path_410 "/nope/" (by decide),
   claim_C5_unknown_path_410 "/gosomewhere/notexpected/" (by decide)⟩
